import Mathlib

/-!
Formal model of `src/datamodel_code_generator/types.py`: the composite type
node (`DataType`), its construction-time aggregation fold (`DataType.__init__`)
and its rendering algorithm (`DataType.type_hint`), together with the small
external collaborators it consumes (`PythonVersion`, `Import`, `Reference`).
Python's mutable-field initializer is modelled as a pure constructor
`DataType.init` from the raw field values (`DataTypeValues`, carrying the
pydantic field defaults); Python sets become `Finset String`, Python lists
become Lean lists, and insertion-ordered dicts become association lists.
-/

/-- Modelled from the spec: the dialect/version selector (`PythonVersion`, from
the format module, absent from the sources). The spec requires at least a
deferred/quoted-names mode (`PY_36`) and a bare-names mode; `PY_37` is the
default carried by `DataType.python_version` in the source. -/
inductive PythonVersion where
  | PY_36
  | PY_37
  | PY_38
deriving DecidableEq, Repr

/-- Modelled from the spec: the opaque schema-reference handle (`Reference`,
from the reference module, absent from the sources). It carries a display
name suitable for `type` and a defining module identifier. -/
structure Reference where
  name : String
  module_name : Option String := none
deriving DecidableEq, Repr

/-- Modelled from the spec: the well-known helper-symbol constants
(`IMPORT_LIST`, `IMPORT_DICT`, `IMPORT_OPTIONAL`, `IMPORT_UNION` from the
imports module, absent from the sources), modelled as distinct opaque
identifiers; `other` stands for any further import symbol a caller may pass. -/
inductive Import where
  | IMPORT_LIST
  | IMPORT_DICT
  | IMPORT_OPTIONAL
  | IMPORT_UNION
  | other (full_path : String)
deriving DecidableEq, Repr

/-- The `DataType` pydantic model of `types.py`: a recursive tree of type
nodes. Field order and names follow the class body; `unresolved_types` is a
Python `Set[str]`, modelled as a `Finset String`; `kwargs` is an
insertion-ordered `Dict[str, Any]`, modelled as an association list whose
values are already rendered to text (the source renders them with `str`). -/
inductive DataType where
  | mk
      (type : Option String)
      (reference : Option Reference)
      (data_types : List DataType)
      (is_func : Bool)
      (kwargs : Option (List (String × String)))
      (imports_ : List Import)
      (python_version : PythonVersion)
      (unresolved_types : Finset String)
      (ref : Bool)
      (is_optional : Bool)
      (is_dict : Bool)
      (is_list : Bool)

/-- Projection for the `type` field of `DataType`. -/
def DataType.type : DataType → Option String
  | .mk t _ _ _ _ _ _ _ _ _ _ _ => t

/-- Projection for the `reference` field of `DataType`. -/
def DataType.reference : DataType → Option Reference
  | .mk _ r _ _ _ _ _ _ _ _ _ _ => r

/-- Projection for the `data_types` field (the children) of `DataType`. -/
def DataType.data_types : DataType → List DataType
  | .mk _ _ ds _ _ _ _ _ _ _ _ _ => ds

/-- Projection for the `is_func` field of `DataType`. -/
def DataType.is_func : DataType → Bool
  | .mk _ _ _ f _ _ _ _ _ _ _ _ => f

/-- Projection for the `kwargs` field of `DataType`. -/
def DataType.kwargs : DataType → Option (List (String × String))
  | .mk _ _ _ _ k _ _ _ _ _ _ _ => k

/-- Projection for the `imports_` field of `DataType`. -/
def DataType.imports_ : DataType → List Import
  | .mk _ _ _ _ _ i _ _ _ _ _ _ => i

/-- Projection for the `python_version` field of `DataType`. -/
def DataType.python_version : DataType → PythonVersion
  | .mk _ _ _ _ _ _ v _ _ _ _ _ => v

/-- Projection for the `unresolved_types` field of `DataType`. -/
def DataType.unresolved_types : DataType → Finset String
  | .mk _ _ _ _ _ _ _ u _ _ _ _ => u

/-- Projection for the `ref` field of `DataType`. -/
def DataType.ref : DataType → Bool
  | .mk _ _ _ _ _ _ _ _ r _ _ _ => r

/-- Projection for the `is_optional` field of `DataType`. -/
def DataType.is_optional : DataType → Bool
  | .mk _ _ _ _ _ _ _ _ _ o _ _ => o

/-- Projection for the `is_dict` field of `DataType`. -/
def DataType.is_dict : DataType → Bool
  | .mk _ _ _ _ _ _ _ _ _ _ d _ => d

/-- Projection for the `is_list` field of `DataType`. -/
def DataType.is_list : DataType → Bool
  | .mk _ _ _ _ _ _ _ _ _ _ _ l => l

/-- The raw keyword values accepted by `DataType(**values)`: every field of
the pydantic model with its declared default (`python_version` defaults to
`PY_37`, booleans to false, containers to empty, optionals to none). -/
structure DataTypeValues where
  type : Option String := none
  reference : Option Reference := none
  data_types : List DataType := []
  is_func : Bool := false
  kwargs : Option (List (String × String)) := none
  imports_ : List Import := []
  python_version : PythonVersion := PythonVersion.PY_37
  unresolved_types : Finset String := ∅
  ref : Bool := false
  is_optional : Bool := false
  is_dict : Bool := false
  is_list : Bool := false

/-- Python truthiness of an `Optional[str]`: `None` and the empty string are
falsy, every other string is truthy. -/
def truthyStr : Option String → Bool
  | some t => t ≠ ""
  | none => false

/-- One iteration of the flag loop of `DataType.__init__`
(`if field and import_ not in self.imports_: self.imports_.append(import_)`):
append the import `p.2` when the flag `p.1` holds and it is not already
present. -/
def appendFlagImport (imports : List Import) (p : Bool × Import) : List Import :=
  if p.1 && !(decide (p.2 ∈ imports)) then imports ++ [p.2] else imports

/-- One iteration of the child loop of `DataType.__init__`
(`self.imports_.extend(data_type.imports_)` and
`self.unresolved_types.update(data_type.unresolved_types)`): extend the
accumulated imports with the child's, with no duplicate check, and union in
the child's unresolved names. -/
def childFold (acc : List Import × Finset String) (c : DataType) :
    List Import × Finset String :=
  (acc.1 ++ c.imports_, acc.2 ∪ c.unresolved_types)

/-- The construction-time fold of `DataType.__init__`: after the fields are
set from `values`, (1) if `self.type and (self.reference or self.ref)`, add
`type` to `unresolved_types`; (2) for each of the four (flag, import) pairs,
append the import if the flag holds and it is not already in `imports_`;
(3) for each child, extend `imports_` with the child's `imports_` and union
the child's `unresolved_types` into `unresolved_types`. -/
def DataType.init (v : DataTypeValues) : DataType :=
  let unresolved0 : Finset String :=
    if truthyStr v.type && (v.reference.isSome || v.ref) then
      insert (v.type.getD "") v.unresolved_types
    else v.unresolved_types
  let imports0 : List Import :=
    [(v.is_list, Import.IMPORT_LIST),
     (v.is_dict, Import.IMPORT_DICT),
     (v.is_optional, Import.IMPORT_OPTIONAL),
     (decide (v.data_types.length > 1), Import.IMPORT_UNION)].foldl
      appendFlagImport v.imports_
  let folded : List Import × Finset String :=
    v.data_types.foldl childFold (imports0, unresolved0)
  .mk v.type v.reference v.data_types v.is_func v.kwargs folded.1
    v.python_version folded.2 v.ref v.is_optional v.is_dict v.is_list

/-- The classmethod `DataType.from_model_name`: a node with `type` set to the
model name and `ref=True`. -/
def DataType.from_model_name (model_name : String) (is_list : Bool) : DataType :=
  DataType.init { type := some model_name, ref := true, is_list := is_list }

/-- The classmethod `DataType.from_reference`: a node with `type` set to the
reference's display name and `reference` set to the handle. -/
def DataType.from_reference (reference : Reference) (is_list : Bool) : DataType :=
  DataType.init
    { type := some reference.name, reference := some reference, is_list := is_list }

mutual

/-- The `type_hint` property of `DataType`: render the node. If `type` is
truthy, the inner form is the name, quoted when the node has a reference or
the `ref` flag and the version is `PY_36`; otherwise the children are
rendered and joined as a `Union[...]` for two or more, collapsed for one,
empty for zero. Then the `List`/`Dict`/`Optional` wrappers apply in that
fixed order (`List` and `Dict` degrade to the bare name on an empty inner
form), and `is_func` finally turns the result into a call expression over
`kwargs`. -/
def DataType.type_hint : DataType → String
  | .mk type reference data_types is_func kwargs _ python_version _ ref
      is_optional is_dict is_list =>
    let type1 : String :=
      if truthyStr type then
        if (reference.isSome || ref) && python_version == PythonVersion.PY_36 then
          "'" ++ type.getD "" ++ "'"
        else type.getD ""
      else
        let types : List String := typeHints data_types
        if types.length > 1 then
          "Union[" ++ String.intercalate ", " types ++ "]"
        else if types.length == 1 then types.headD ""
        else ""
    let type2 : String :=
      if is_list then (if type1 ≠ "" then "List[" ++ type1 ++ "]" else "List")
      else type1
    let type3 : String :=
      if is_dict then (if type2 ≠ "" then "Dict[str, " ++ type2 ++ "]" else "Dict")
      else type2
    let type4 : String :=
      if is_optional then "Optional[" ++ type3 ++ "]" else type3
    if is_func then
      match kwargs with
      | some kw =>
        if !kw.isEmpty then
          type4 ++ "(" ++
            String.intercalate ", " (kw.map fun p => p.1 ++ "=" ++ p.2) ++ ")"
        else type4 ++ "()"
      | none => type4 ++ "()"
    else type4

/-- Renders each node of a list of children, in order (the list comprehension
`[data_type.type_hint for data_type in self.data_types]`). -/
def typeHints : List DataType → List String
  | [] => []
  | d :: ds => DataType.type_hint d :: typeHints ds

end

/-- The list-comprehension renderer is `List.map` of the node renderer. -/
theorem typeHints_eq_map (ds : List DataType) :
    typeHints ds = ds.map DataType.type_hint := by
  induction ds with
  | nil => rfl
  | cons d ds ih => simp [typeHints, ih]

/-- The child loop of the constructor appends each child's imports, in
order and unfiltered, after the accumulated list. -/
theorem childFold_fst (ds : List DataType) (i : List Import) (u : Finset String) :
    (List.foldl childFold (i, u) ds).1 = i ++ (ds.map DataType.imports_).flatten := by
  induction ds generalizing i u with
  | nil => simp
  | cons d ds ih =>
    simp only [List.foldl_cons, childFold, List.map_cons, List.flatten_cons]
    rw [ih, List.append_assoc]

/-- The child loop of the constructor only grows the unresolved-name set. -/
theorem mem_childFold_snd (ds : List DataType) (i : List Import) (u : Finset String)
    (x : String) (hx : x ∈ u) : x ∈ (List.foldl childFold (i, u) ds).2 := by
  induction ds generalizing i u with
  | nil => simpa using hx
  | cons d ds ih =>
    simp only [List.foldl_cons, childFold]
    exact ih _ _ (Finset.mem_union_left _ hx)

/-- Every unresolved name of a child survives the child loop of the
constructor. -/
theorem mem_childFold_snd_of_child (ds : List DataType) (i : List Import)
    (u : Finset String) (c : DataType) (x : String) (hc : c ∈ ds)
    (hx : x ∈ c.unresolved_types) : x ∈ (List.foldl childFold (i, u) ds).2 := by
  induction ds generalizing i u with
  | nil => cases hc
  | cons d ds ih =>
    simp only [List.foldl_cons, childFold]
    rcases List.mem_cons.mp hc with h | h
    · subst h
      exact mem_childFold_snd _ _ _ _ (Finset.mem_union_right _ hx)
    · exact ih _ _ h

/-- C1, counterexample: a composite node whose two children each already
require the list helper ends with the list helper twice in `imports_`, so
`required_helpers` is not duplicate-free. -/
theorem C1_counterexample :
    (DataType.init { data_types :=
        [DataType.init { type := some "str", is_list := true },
         DataType.init { type := some "str", is_list := true }] }).imports_ =
      [Import.IMPORT_UNION, Import.IMPORT_LIST, Import.IMPORT_LIST] ∧
    ¬ (DataType.init { data_types :=
        [DataType.init { type := some "str", is_list := true },
         DataType.init { type := some "str", is_list := true }] }).imports_.Nodup := by
  decide

/-- C1, amended: starting from an empty `imports_`, the node's own
flag-derived helpers are appended duplicate-free, in the fixed order list,
dict, optional, union (the union helper exactly once however many children
there are), and then the children's helper lists are concatenated wholesale,
with no duplicate check, so helpers already carried by several children can
appear several times. -/
theorem C1_theorem (v : DataTypeValues) (h : v.imports_ = []) :
    (DataType.init v).imports_ =
      ((if v.is_list then [Import.IMPORT_LIST] else []) ++
       (if v.is_dict then [Import.IMPORT_DICT] else []) ++
       (if v.is_optional then [Import.IMPORT_OPTIONAL] else []) ++
       (if 1 < v.data_types.length then [Import.IMPORT_UNION] else [])) ++
      (v.data_types.map DataType.imports_).flatten ∧
    ((if v.is_list then [Import.IMPORT_LIST] else []) ++
     (if v.is_dict then [Import.IMPORT_DICT] else []) ++
     (if v.is_optional then [Import.IMPORT_OPTIONAL] else []) ++
     (if 1 < v.data_types.length then [Import.IMPORT_UNION] else [])).Nodup := by
  obtain ⟨ty, re, ds, f, kw, im, pv, un, rf, o, d, l⟩ := v
  simp only at h
  subst h
  constructor
  · simp only [DataType.init, DataType.imports_]
    rw [childFold_fst]
    congr 1
    by_cases hn : 1 < ds.length <;>
      cases l <;> cases d <;> cases o <;>
        simp [appendFlagImport, hn]
  · by_cases hn : 1 < ds.length <;>
      cases l <;> cases d <;> cases o <;>
        simp [hn]

/-- Witness for C1: the amended shape evaluated on the union of two
list-flagged leaves, where the list helper indeed shows up twice. -/
theorem C1_witness :
    (DataType.init { data_types :=
        [DataType.init { type := some "int", is_list := true },
         DataType.init { type := some "float", is_list := true }] }).imports_ =
      [Import.IMPORT_UNION, Import.IMPORT_LIST, Import.IMPORT_LIST] := by
  have h := C1_theorem
    { data_types :=
        [DataType.init { type := some "int", is_list := true },
         DataType.init { type := some "float", is_list := true }] } rfl
  simpa using h.1

/-- C2, counterexample: a node built directly with only a name set has no
reference and no ref flag, and its name is NOT recorded in
`unresolved_types`, which stays empty. -/
theorem C2_counterexample :
    (DataType.init { type := some "CustomType" }).reference = none ∧
    (DataType.init { type := some "CustomType" }).ref = false ∧
    "CustomType" ∉ (DataType.init { type := some "CustomType" }).unresolved_types ∧
    (DataType.init { type := some "CustomType" }).unresolved_types = ∅ := by
  decide

/-- C2, amended: direct construction with only a name (no reference handle,
no ref flag, no children) produces a leaf whose `unresolved_types` set is
empty; a name is recorded in `unresolved_types` exactly when the node also
carries a reference or the explicit external-reference flag, as the factory
constructor `from_model_name` does. -/
theorem C2_theorem (v : DataTypeValues) (href : v.reference = none)
    (hrf : v.ref = false) (hds : v.data_types = [])
    (hu : v.unresolved_types = ∅) :
    (DataType.init v).unresolved_types = ∅ ∧
    ∀ t : String, t ≠ "" → ∀ il : Bool,
      (DataType.from_model_name t il).unresolved_types = {t} := by
  constructor
  · obtain ⟨ty, re, ds, f, kw, im, pv, un, rf, o, d, l⟩ := v
    simp only at href hrf hds hu
    subst href hrf hds hu
    simp [DataType.init, DataType.unresolved_types, childFold]
  · intro t ht il
    simp [DataType.from_model_name, DataType.init, DataType.unresolved_types,
      truthyStr, ht, childFold]

/-- Witness for C2: the leaf named CustomType carries no unresolved names,
while the factory-built Pet node records Pet. -/
theorem C2_witness :
    (DataType.init { type := some "CustomType" }).unresolved_types = ∅ ∧
    (DataType.from_model_name "Pet" false).unresolved_types = {"Pet"} := by
  have h := C2_theorem { type := some "CustomType" } rfl rfl rfl rfl
  exact ⟨h.1, h.2 "Pet" (by decide) false⟩

/-- C3, counterexample: an optional-flagged node with empty inner form does
not render as the bare helper name Optional; it renders as the bracketed
form around the empty string. -/
theorem C3_counterexample :
    (DataType.init { is_optional := true }).type_hint ≠ "Optional" ∧
    (DataType.init { is_optional := true }).type_hint = "Optional[]" := by
  decide

/-- C3, amended: on an empty inner form the list and mapping wrappers render
as the bare helper names List and Dict, but the optional wrapper always
brackets, producing the degenerate Optional[] around the empty string. -/
theorem C3_theorem (v : DataTypeValues) (hty : truthyStr v.type = false)
    (hds : v.data_types = []) (hf : v.is_func = false) :
    (DataType.init
        { v with is_list := true, is_dict := false, is_optional := false }).type_hint
      = "List" ∧
    (DataType.init
        { v with is_list := false, is_dict := true, is_optional := false }).type_hint
      = "Dict" ∧
    (DataType.init
        { v with is_list := false, is_dict := false, is_optional := true }).type_hint
      = "Optional[]" := by
  obtain ⟨ty, re, ds, f, kw, im, pv, un, rf, o, d, l⟩ := v
  simp only at hty hds hf
  subst hds hf
  refine ⟨?_, ?_, ?_⟩ <;>
    simp [DataType.init, DataType.type_hint, typeHints, hty, childFold]

/-- Witness for C3: the three wrappers on an all-default empty node. -/
theorem C3_witness :
    (DataType.init { is_list := true }).type_hint = "List" ∧
    (DataType.init { is_dict := true }).type_hint = "Dict" ∧
    (DataType.init { is_optional := true }).type_hint = "Optional[]" := by
  have h := C3_theorem {} rfl rfl rfl
  exact ⟨h.1, h.2.1, h.2.2⟩

/-- C4: a named node with a reference or the ref flag renders as the
single-quoted name under the deferred-name dialect PY_36; under any other
dialect, or without reference and flag under either dialect, it renders as
the bare name (wrapper flags and call flag off, so the inner form is the
whole rendering). -/
theorem C4_theorem (v : DataTypeValues) (t : String) (hty : v.type = some t)
    (ht : t ≠ "") (hl : v.is_list = false) (hd : v.is_dict = false)
    (ho : v.is_optional = false) (hf : v.is_func = false) :
    ((v.reference.isSome = true ∨ v.ref = true) →
        v.python_version = PythonVersion.PY_36 →
        (DataType.init v).type_hint = "'" ++ t ++ "'") ∧
    (v.python_version ≠ PythonVersion.PY_36 → (DataType.init v).type_hint = t) ∧
    (v.reference = none → v.ref = false → (DataType.init v).type_hint = t) := by
  obtain ⟨ty, re, ds, f, kw, im, pv, un, rf, o, d, l⟩ := v
  simp only at hty hl hd ho hf
  subst hty hl hd ho hf
  refine ⟨?_, ?_, ?_⟩
  · intro hor hpv
    simp only at hpv
    subst hpv
    rcases hor with h | h <;>
      simp_all [DataType.init, DataType.type_hint, truthyStr, ht]
  · intro hpv
    simp only at hpv
    have : (pv == PythonVersion.PY_36) = false := by
      simpa using hpv
    simp [DataType.init, DataType.type_hint, truthyStr, ht, this]
  · intro hre hrf
    simp only at hre hrf
    subst hre hrf
    simp [DataType.init, DataType.type_hint, truthyStr, ht]

/-- Witness for C4: the referenced Pet node quoted under PY_36, bare under
PY_37, and a plain scalar bare even under PY_36. -/
theorem C4_witness :
    (DataType.init { type := some "Pet", reference := some { name := "Pet" },
                     python_version := PythonVersion.PY_36 }).type_hint = "'Pet'" ∧
    (DataType.init { type := some "Pet",
                     reference := some { name := "Pet" } }).type_hint = "Pet" ∧
    (DataType.init { type := some "int",
                     python_version := PythonVersion.PY_36 }).type_hint = "int" := by
  refine ⟨?_, ?_, ?_⟩
  · have h := C4_theorem
      { type := some "Pet", reference := some { name := "Pet" },
        python_version := PythonVersion.PY_36 } "Pet" rfl (by decide) rfl rfl rfl rfl
    rw [h.1 (Or.inl rfl) rfl]
    decide
  · have h := C4_theorem
      { type := some "Pet", reference := some { name := "Pet" } } "Pet" rfl
      (by decide) rfl rfl rfl rfl
    exact h.2.1 (by decide)
  · have h := C4_theorem
      { type := some "int", python_version := PythonVersion.PY_36 } "int" rfl
      (by decide) rfl rfl rfl rfl
    exact h.2.2 rfl rfl

/-- C5: with both the list and the optional flag set on a named node, the
optional wrapper goes outermost around the list wrapper; with the mapping
flag set as well, the fixed nesting is optional around mapping around list. -/
theorem C5_theorem (v : DataTypeValues) (t : String) (hty : v.type = some t)
    (ht : t ≠ "") (href : v.reference = none) (hrf : v.ref = false)
    (hf : v.is_func = false) (hl : v.is_list = true) (ho : v.is_optional = true) :
    (v.is_dict = false →
        (DataType.init v).type_hint = "Optional[" ++ ("List[" ++ t ++ "]") ++ "]") ∧
    (v.is_dict = true →
        (DataType.init v).type_hint =
          "Optional[" ++ ("Dict[str, " ++ ("List[" ++ t ++ "]") ++ "]") ++ "]") := by
  obtain ⟨ty, re, ds, f, kw, im, pv, un, rf, o, d, l⟩ := v
  simp only at hty href hrf hf hl ho
  subst hty href hrf hf hl ho
  have hlt : ("List[" ++ t ++ "]" : String) ≠ "" := by
    intro h
    have := congrArg String.length h
    simp [String.length_append] at this
    exact absurd this.1.1 (by decide)
  constructor
  · intro hd
    simp only at hd
    subst hd
    simp [DataType.init, DataType.type_hint, truthyStr, ht]
  · intro hd
    simp only at hd
    subst hd
    simp [DataType.init, DataType.type_hint, truthyStr, ht, hlt]

/-- Witness for C5: the int node with both flags renders Optional[List[int]],
never List[Optional[int]]; with the dict flag too it renders
Optional[Dict[str, List[int]]]. -/
theorem C5_witness :
    (DataType.init { type := some "int", is_list := true,
                     is_optional := true }).type_hint = "Optional[List[int]]" ∧
    (DataType.init { type := some "int", is_list := true, is_optional := true,
                     is_dict := true }).type_hint = "Optional[Dict[str, List[int]]]" ∧
    (DataType.init { type := some "int", is_list := true,
                     is_optional := true }).type_hint ≠ "List[Optional[int]]" := by
  refine ⟨?_, ?_, ?_⟩
  · have h := C5_theorem
      { type := some "int", is_list := true, is_optional := true } "int" rfl
      (by decide) rfl rfl rfl rfl rfl
    rw [h.1 rfl]
    decide
  · have h := C5_theorem
      { type := some "int", is_list := true, is_optional := true,
        is_dict := true } "int" rfl (by decide) rfl rfl rfl rfl rfl
    rw [h.2 rfl]
    decide
  · have h := C5_theorem
      { type := some "int", is_list := true, is_optional := true } "int" rfl
      (by decide) rfl rfl rfl rfl rfl
    rw [h.1 rfl]
    decide

/-- C6: a node with no (truthy) name and no shape or call flags renders its
children joined as a union expression when there are two or more, collapses
to the single child's rendering with no union syntax when there is exactly
one, and renders the empty string when there are none. -/
theorem C6_theorem (v : DataTypeValues) (hty : truthyStr v.type = false)
    (hl : v.is_list = false) (hd : v.is_dict = false) (ho : v.is_optional = false)
    (hf : v.is_func = false) :
    (1 < v.data_types.length →
        (DataType.init v).type_hint =
          "Union[" ++
            String.intercalate ", " (v.data_types.map DataType.type_hint) ++ "]") ∧
    (∀ c, v.data_types = [c] → (DataType.init v).type_hint = c.type_hint) ∧
    (v.data_types = [] → (DataType.init v).type_hint = "") := by
  obtain ⟨ty, re, ds, f, kw, im, pv, un, rf, o, d, l⟩ := v
  simp only at hty hl hd ho hf
  subst hl hd ho hf
  refine ⟨?_, ?_, ?_⟩
  · intro hn
    simp only at hn
    simp [DataType.init, DataType.type_hint, typeHints_eq_map, hty, hn]
  · intro c hc
    simp only at hc
    subst hc
    simp [DataType.init, DataType.type_hint, typeHints, hty]
  · intro hc
    simp only at hc
    subst hc
    simp [DataType.init, DataType.type_hint, typeHints, hty]

/-- Witness for C6: a union of two scalar leaves, a single-child composite
collapsing to its child, and the empty composite rendering nothing. -/
theorem C6_witness :
    (DataType.init { data_types :=
        [DataType.init { type := some "int" },
         DataType.init { type := some "str" }] }).type_hint = "Union[int, str]" ∧
    (DataType.init { data_types :=
        [DataType.init { type := some "int" }] }).type_hint = "int" ∧
    (DataType.init { data_types := ([] : List DataType) }).type_hint = "" := by
  refine ⟨?_, ?_, ?_⟩
  · have h := C6_theorem
      { data_types := [DataType.init { type := some "int" },
                       DataType.init { type := some "str" }] } rfl rfl rfl rfl rfl
    rw [h.1 (by decide)]
    decide
  · have h := C6_theorem
      { data_types := [DataType.init { type := some "int" }] } rfl rfl rfl rfl rfl
    rw [h.2.1 (DataType.init { type := some "int" }) rfl]
    decide
  · have h := C6_theorem { data_types := ([] : List DataType) } rfl rfl rfl rfl rfl
    exact h.2.2 rfl

/-- C7: a constructor-call node renders as a call expression whose callee is
the rendering the same node would have without the call flag and whose
argument list is the kwargs rendered as key=value pairs, in insertion order,
joined by a comma and a space; empty or absent kwargs give an empty argument
list, never an omitted one. -/
theorem C7_theorem (v : DataTypeValues) (hf : v.is_func = true) :
    (DataType.init v).type_hint =
      (DataType.init { v with is_func := false }).type_hint ++ "(" ++
        String.intercalate ", "
          ((v.kwargs.getD []).map fun p => p.1 ++ "=" ++ p.2) ++ ")" := by
  obtain ⟨ty, re, ds, f, kw, im, pv, un, rf, o, d, l⟩ := v
  simp only at hf
  subst hf
  rcases kw with _ | kw
  · simp [DataType.init, DataType.type_hint, String.intercalate,
      String.append_assoc]
  · rcases kw with _ | ⟨p, kw⟩
    · simp [DataType.init, DataType.type_hint, String.intercalate,
        String.append_assoc]
    · simp [DataType.init, DataType.type_hint]

/-- Witness for C7: Field with one kwarg renders Field(default=1); with no
kwargs it renders Field() with an empty argument list. -/
theorem C7_witness :
    (DataType.init { type := some "Field", is_func := true,
                     kwargs := some [("default", "1")] }).type_hint
      = "Field(default=1)" ∧
    (DataType.init { type := some "Field", is_func := true }).type_hint
      = "Field()" := by
  constructor
  · rw [C7_theorem
      { type := some "Field", is_func := true,
        kwargs := some [("default", "1")] } rfl]
    decide
  · rw [C7_theorem { type := some "Field", is_func := true } rfl]
    decide

/-- C8: construction is monotone over the subtree: every unresolved name and
every required helper of a child is also recorded on the freshly built
parent. -/
theorem C8_theorem (v : DataTypeValues) (c : DataType) (hc : c ∈ v.data_types) :
    (∀ x ∈ c.unresolved_types, x ∈ (DataType.init v).unresolved_types) ∧
    (∀ i ∈ c.imports_, i ∈ (DataType.init v).imports_) := by
  constructor
  · intro x hx
    simp only [DataType.init, DataType.unresolved_types]
    exact mem_childFold_snd_of_child _ _ _ _ _ hc hx
  · intro i hi
    simp only [DataType.init, DataType.imports_]
    rw [childFold_fst]
    exact List.mem_append_right _
      (List.mem_flatten.mpr ⟨c.imports_, List.mem_map_of_mem _ hc, hi⟩)

/-- Witness for C8: the parent of a factory-built list-of-Pet child inherits
the child's unresolved name Pet and its list helper. -/
theorem C8_witness :
    "Pet" ∈ (DataType.init
      { data_types := [DataType.from_model_name "Pet" true] }).unresolved_types ∧
    Import.IMPORT_LIST ∈ (DataType.init
      { data_types := [DataType.from_model_name "Pet" true] }).imports_ := by
  have h := C8_theorem { data_types := [DataType.from_model_name "Pet" true] }
    (DataType.from_model_name "Pet" true) (List.mem_singleton_self _)
  exact ⟨h.1 "Pet" (by decide), h.2 Import.IMPORT_LIST (by decide)⟩

/-- C9: constructing a parent from existing children stores exactly the
given children, and every stored child keeps its name, reference, unresolved
names, required helpers and rendering; in this pure model the
construction-time fold of the parent reads the children and writes only the
parent's own aggregate fields, so child nodes are unchanged values. -/
theorem C9_theorem (v : DataTypeValues) :
    (DataType.init v).data_types = v.data_types ∧
    ∀ c ∈ v.data_types, ∃ c' ∈ (DataType.init v).data_types,
      c'.type = c.type ∧ c'.reference = c.reference ∧
      c'.unresolved_types = c.unresolved_types ∧
      c'.imports_ = c.imports_ ∧ c'.type_hint = c.type_hint := by
  have hd : (DataType.init v).data_types = v.data_types := by
    simp [DataType.init, DataType.data_types]
  exact ⟨hd, fun c hc => ⟨c, hd ▸ hc, rfl, rfl, rfl, rfl, rfl⟩⟩

/-- Witness for C9: the parent built over the int leaf stores that leaf
unchanged. -/
theorem C9_witness :
    (DataType.init { data_types :=
        [DataType.init { type := some "int" }] }).data_types =
      [DataType.init { type := some "int" }] :=
  (C9_theorem { data_types := [DataType.init { type := some "int" }] }).1

/-- C10: a node with both a truthy name and children renders exactly as the
same node without children (the name is the whole inner form, the children's
renderings and any union syntax are ignored), while its unresolved names and
required helpers still include everything aggregated from the children. -/
theorem C10_theorem (v : DataTypeValues) (t : String) (hty : v.type = some t)
    (ht : t ≠ "") (hne : v.data_types ≠ []) :
    (DataType.init v).type_hint =
      (DataType.init { v with data_types := [] }).type_hint ∧
    ∀ c ∈ v.data_types,
      (∀ x ∈ c.unresolved_types, x ∈ (DataType.init v).unresolved_types) ∧
      (∀ i ∈ c.imports_, i ∈ (DataType.init v).imports_) := by
  constructor
  · obtain ⟨ty, re, ds, f, kw, im, pv, un, rf, o, d, l⟩ := v
    simp only at hty
    subst hty
    simp [DataType.init, DataType.type_hint, truthyStr, ht]
  · intro c hc
    constructor
    · intro x hx
      simp only [DataType.init, DataType.unresolved_types]
      exact mem_childFold_snd_of_child _ _ _ _ _ hc hx
    · intro i hi
      simp only [DataType.init, DataType.imports_]
      rw [childFold_fst]
      exact List.mem_append_right _
        (List.mem_flatten.mpr ⟨c.imports_, List.mem_map_of_mem _ hc, hi⟩)

/-- Witness for C10: a node named Named over a list-of-Pet child renders as
the bare name with no union syntax, yet inherits the child's unresolved name
and list helper. -/
theorem C10_witness :
    (DataType.init
        { type := some "Named",
          data_types := [DataType.from_model_name "Pet" true] }).type_hint
      = "Named" ∧
    "Pet" ∈ (DataType.init
        { type := some "Named",
          data_types := [DataType.from_model_name "Pet" true] }).unresolved_types ∧
    Import.IMPORT_LIST ∈ (DataType.init
        { type := some "Named",
          data_types := [DataType.from_model_name "Pet" true] }).imports_ := by
  have h := C10_theorem
    { type := some "Named", data_types := [DataType.from_model_name "Pet" true] }
    "Named" rfl (by decide) (List.cons_ne_nil _ _)
  have h2 := h.2 (DataType.from_model_name "Pet" true) (List.mem_singleton_self _)
  refine ⟨?_, h2.1 "Pet" (by decide), h2.2 Import.IMPORT_LIST (by decide)⟩
  rw [h.1]
  decide
